import Mathlib

/-!
Shallow embedding of script/graceful_shutdown.py, a one-shot CLI that asks a
conference focus service to shut down gracefully, polls its stats until the
"conferences" counter reaches zero, then disconnects and exits.

The embedding models the dynamic (Python) values that flow through the script,
the `get_conferences` extraction function, the polling loop and exception flow
of `FocusShutdownUserBot.shutdown_focus`, and the `__main__` driver.
-/

/-- A Python value as it can flow out of `get_conferences` and into the
comparison `conf_count == '0'`: a string (the value attribute of a stat
element), the Python None (a stat with no value attribute), or an integer
(the sentinel -1 for an absent counter). -/
inductive PyVal where
  | str (s : String)
  | pynone
  | int (n : Int)
deriving DecidableEq, Repr

/-- One `stat` element of a colibri stats response: `stat.get('name')` and
`stat.get('value')` each return the attribute string or None. -/
structure Stat where
  name : Option String
  value : Option String
deriving DecidableEq, Repr

/-- Embeds the Python expression `stat.get('value')` flowing into `return
value`: an attribute string becomes that string, a missing attribute is
None. -/
def pyOfOpt : Option String → PyVal
  | some v => PyVal.str v
  | none => PyVal.pynone

/-- Embedding of `get_conferences(stats_xml)`: walk the stat elements in
order; on the first one whose name attribute equals "conferences" return its
value attribute (possibly None); if none matches return the integer -1. -/
def get_conferences : List Stat → PyVal
  | [] => PyVal.int (-1)
  | stat :: rest =>
    if stat.name = some "conferences" then pyOfOpt stat.value
    else get_conferences rest

/-- Embedding of the Python comparison `conf_count == '0'`: true exactly for
the string "0"; False for any other string, for None and for any integer,
mirroring Python equality across types. -/
def eqStrZero : PyVal → Bool
  | PyVal.str s => s == "0"
  | _ => false

/-- A sleekxmpp StanzaError as inspected by the script: its `etype` and
`condition` fields. -/
structure StanzaErr where
  etype : String
  condition : String
deriving DecidableEq, Repr

/-- Outcome of one `stats_iq.send()` in the polling loop: either a response
whose colibri-stats payload holds the given stat elements, or a raised
StanzaError. -/
inductive PollOutcome where
  | resp (stats : List Stat)
  | raise (e : StanzaErr)
deriving DecidableEq, Repr

/-- Outcome of the initial shutdown `iq.send()`: either a returned response
with the given stanza type string (the script checks it against "result"),
or a raised StanzaError. -/
inductive ShutOutcome where
  | ret (typ : String)
  | raise (e : StanzaErr)
deriving DecidableEq, Repr

/-- How the polling loop of `shutdown_focus` ends on a given trace of poll
outcomes, together with the number of polls issued and sleeps performed:
`broke` for the `break` on a count equal to the string "0", `raised` for a
StanzaError propagating out of the loop, `exhausted` when the supplied trace
ran out while the loop would still continue. -/
inductive LoopEnd where
  | broke (polls sleeps : Nat)
  | raised (e : StanzaErr) (polls sleeps : Nat)
  | exhausted (polls sleeps : Nat)
deriving DecidableEq, Repr

/-- Embedding of the `while True` loop in `shutdown_focus`: each iteration
sends a stats request (counted in `polls`), extracts the conferences counter
with `get_conferences` and breaks if it equals the string "0"; otherwise it
sleeps 10 seconds (counted in `sleeps`) and repeats. A raised StanzaError
leaves the loop at once. -/
def pollLoop : List PollOutcome → Nat → Nat → LoopEnd
  | [], p, s => LoopEnd.exhausted p s
  | PollOutcome.resp stats :: rest, p, s =>
    if eqStrZero (get_conferences stats) then LoopEnd.broke (p + 1) s
    else pollLoop rest (p + 1) (s + 1)
  | PollOutcome.raise e :: _, p, s => LoopEnd.raised e (p + 1) s

/-- Observable trace of one execution of `shutdown_focus`: the final value of
the global `exitCode`, the list of values assigned to it during the run (it
starts at `exitCode_init` and the script has a single assignment site),
how many times `self.disconnect(wait=True)` was invoked, how many stats polls
were issued, how many 10-second sleeps were performed, and whether the
handler returned (as opposed to the supplied poll trace running out while
the loop would still continue). -/
structure Trace where
  exitCode : Nat
  ecHistory : List Nat
  disconnects : Nat
  pollCount : Nat
  sleepCount : Nat
  terminated : Bool
deriving DecidableEq, Repr

/-- The module-level initialization `exitCode = 0`. -/
def exitCode_init : Nat := 0

/-- Embedding of `FocusShutdownUserBot.shutdown_focus`: send the
graceful-shutdown iq; if it returns a response of type "result", run the
polling loop and, when it breaks on a zero count, disconnect with flush.
A StanzaError raised anywhere in the try block lands in the except clause,
which sets `exitCode = 1` only when the shutdown was not yet accepted and
the error has etype different from "wait" and condition different from
"service-unavailable", and always disconnects with flush. A StanzaError
raised inside the polling loop reaches the same except clause with
`shutdown_accepted` already True, so it never touches `exitCode`. -/
def shutdown_focus (shut : ShutOutcome) (polls : List PollOutcome) : Trace :=
  match shut with
  | ShutOutcome.ret typ =>
    if typ = "result" then
      match pollLoop polls 0 0 with
      | LoopEnd.broke p s =>
        { exitCode := exitCode_init, ecHistory := [], disconnects := 1,
          pollCount := p, sleepCount := s, terminated := true }
      | LoopEnd.raised _ p s =>
        { exitCode := exitCode_init, ecHistory := [], disconnects := 1,
          pollCount := p, sleepCount := s, terminated := true }
      | LoopEnd.exhausted p s =>
        { exitCode := exitCode_init, ecHistory := [], disconnects := 0,
          pollCount := p, sleepCount := s, terminated := false }
    else
      { exitCode := exitCode_init, ecHistory := [], disconnects := 0,
        pollCount := 0, sleepCount := 0, terminated := true }
  | ShutOutcome.raise e =>
    if e.etype ≠ "wait" ∧ e.condition ≠ "service-unavailable" then
      { exitCode := 1, ecHistory := [1], disconnects := 1,
        pollCount := 0, sleepCount := 0, terminated := true }
    else
      { exitCode := exitCode_init, ecHistory := [], disconnects := 1,
        pollCount := 0, sleepCount := 0, terminated := true }

/-- Result of the `__main__` driver: the value passed to `exit(...)` and the
log messages the driver itself emits around the connection attempt. -/
structure MainResult where
  exitCode : Nat
  logs : List String
deriving DecidableEq, Repr

/-- Embedding of the tail of `__main__` after argument checks: if
`xmpp.connect(...)` succeeds, `xmpp.process(block=True)` runs
`shutdown_focus` and the driver logs "Done"; otherwise the driver only logs
"Unable to connect." and the global `exitCode` keeps its initial value 0.
Either way the process exits with the final value of `exitCode`. -/
def mainRun (connectOk : Bool) (shut : ShutOutcome) (polls : List PollOutcome) :
    MainResult :=
  if connectOk then
    { exitCode := (shutdown_focus shut polls).exitCode, logs := ["Done"] }
  else
    { exitCode := exitCode_init, logs := ["Unable to connect."] }

/-- Bool predicate for a stat element whose name attribute is
"conferences". -/
def isConf (s : Stat) : Bool := s.name == some "conferences"

/-- A poll outcome that keeps the loop going: a response whose extracted
count is not the string "0". -/
def nonZeroResp (o : PollOutcome) : Prop :=
  ∃ stats, o = PollOutcome.resp stats ∧ eqStrZero (get_conferences stats) = false

/-- The poll counter recorded by a `break` strictly exceeds the counter the
loop started from: a break always accounts for at least the poll of its own
iteration. -/
theorem pollLoop_broke_lt (l : List PollOutcome) (p s p' s' : Nat)
    (h : pollLoop l p s = LoopEnd.broke p' s') : p < p' := by
  induction l generalizing p s with
  | nil => simp [pollLoop] at h
  | cons o rest ih =>
    cases o with
    | resp stats =>
      by_cases hz : eqStrZero (get_conferences stats) = true
      · simp [pollLoop, hz] at h
        omega
      · simp [pollLoop, hz] at h
        have := ih (p + 1) (s + 1) h
        omega
    | raise e => simp [pollLoop] at h

/-- Running the loop past a prefix of non-zero responses just advances the
poll and sleep counters by the length of the prefix. -/
theorem pollLoop_append_nonzero (pre : List PollOutcome)
    (hpre : ∀ o ∈ pre, nonZeroResp o) (tl : List PollOutcome) (p s : Nat) :
    pollLoop (pre ++ tl) p s = pollLoop tl (p + pre.length) (s + pre.length) := by
  induction pre generalizing p s with
  | nil => simp
  | cons o rest ih =>
    obtain ⟨stats, rfl, hz⟩ := hpre o (List.mem_cons_self o rest)
    have hrest : ∀ x ∈ rest, nonZeroResp x := fun x hx =>
      hpre x (List.mem_cons_of_mem _ hx)
    simp only [List.cons_append, pollLoop, hz, Bool.false_eq_true, if_false,
      List.length_cons]
    rw [List.append_eq, ih hrest (p + 1) (s + 1)]
    have h1 : p + 1 + rest.length = p + (rest.length + 1) := by omega
    have h2 : s + 1 + rest.length = s + (rest.length + 1) := by omega
    rw [h1, h2]

/-- The extraction function equals a first-match lookup over the stat list. -/
theorem get_conferences_eq_find (l : List Stat) :
    get_conferences l =
      (match l.find? isConf with
       | some st => pyOfOpt st.value
       | none => PyVal.int (-1)) := by
  induction l with
  | nil => simp [get_conferences, List.find?]
  | cons st rest ih =>
    by_cases h : st.name = some "conferences"
    · simp [get_conferences, h, List.find?, isConf]
    · have hb : isConf st = false := by simp [isConf, h]
      simp [get_conferences, h, List.find?, hb, ih]

/-- The Python comparison with the string "0" succeeds exactly on the PyVal
embedding of that string. -/
theorem eqStrZero_iff (v : PyVal) : eqStrZero v = true ↔ v = PyVal.str "0" := by
  cases v <;> simp [eqStrZero]

/-- Contrapositive form of `eqStrZero_iff`. -/
theorem eqStrZero_false_iff (v : PyVal) :
    eqStrZero v = false ↔ v ≠ PyVal.str "0" := by
  rw [← Bool.not_eq_true, not_iff_not]
  exact eqStrZero_iff v

/-- When at most one stat element is named "conferences", the first-match
lookup finds the same element in any permutation of the list. -/
theorem find?_isConf_eq_of_perm (l1 l2 : List Stat) (hp : l1.Perm l2)
    (hc : l1.countP isConf ≤ 1) : l1.find? isConf = l2.find? isConf := by
  cases h1 : l1.find? isConf with
  | none =>
    have hnone : ∀ x ∈ l1, ¬isConf x = true := List.find?_eq_none.mp h1
    symm
    rw [List.find?_eq_none]
    intro x hx
    exact hnone x (hp.mem_iff.mpr hx)
  | some a =>
    have ha1 : isConf a = true := List.find?_some h1
    have hma : a ∈ l1 := List.mem_of_find?_eq_some h1
    cases h2 : l2.find? isConf with
    | none =>
      exact absurd ha1 (List.find?_eq_none.mp h2 a (hp.mem_iff.mp hma))
    | some b =>
      have hb1 : isConf b = true := List.find?_some h2
      have hmb : b ∈ l1 := hp.mem_iff.mpr (List.mem_of_find?_eq_some h2)
      have hfa : a ∈ l1.filter isConf := List.mem_filter.mpr ⟨hma, ha1⟩
      have hfb : b ∈ l1.filter isConf := List.mem_filter.mpr ⟨hmb, hb1⟩
      have hlen : (l1.filter isConf).length ≤ 1 := by
        rw [← List.countP_eq_length_filter]
        exact hc
      have hpos : 0 < (l1.filter isConf).length :=
        List.length_pos.mpr (List.ne_nil_of_mem hfa)
      have hone : (l1.filter isConf).length = 1 := by omega
      obtain ⟨x, hx⟩ := List.length_eq_one.mp hone
      rw [hx, List.mem_singleton] at hfa hfb
      rw [hfa, hfb]

/-- The first stat named "conferences" decides the extraction: any stats
before it with other names are skipped and anything after it is ignored. -/
theorem get_conferences_first_match (pre : List Stat) (st : Stat)
    (rest : List Stat) (hpre : ∀ x ∈ pre, isConf x = false)
    (hst : isConf st = true) :
    get_conferences (pre ++ st :: rest) = pyOfOpt st.value := by
  have hname : st.name = some "conferences" := by simpa [isConf] using hst
  revert hpre
  induction pre with
  | nil =>
    intro _
    simp [get_conferences, hname]
  | cons x xs ih =>
    intro hpre
    have hx : isConf x = false := hpre x (List.mem_cons_self x xs)
    have hx' : ¬x.name = some "conferences" := by simpa [isConf] using hx
    have hxs : ∀ y ∈ xs, isConf y = false := fun y hy =>
      hpre y (List.mem_cons_of_mem _ hy)
    simp [get_conferences, hx', ih hxs]

/-- Claim C1: in the polling loop of shutdown_focus, an iteration is the last
one if and only if the value extracted for the "conferences" counter equals
the literal string "0"; for every other extracted value, including the
integer sentinel -1 returned when the counter is absent, the loop sleeps and
polls again. -/
theorem c1_loop_last_iff_zero (stats : List Stat) (rest : List PollOutcome)
    (p s : Nat) :
    (pollLoop (PollOutcome.resp stats :: rest) p s = LoopEnd.broke (p + 1) s ↔
      get_conferences stats = PyVal.str "0") ∧
    (get_conferences stats ≠ PyVal.str "0" →
      pollLoop (PollOutcome.resp stats :: rest) p s =
        pollLoop rest (p + 1) (s + 1)) := by
  constructor
  · constructor
    · intro hb
      by_contra hne
      have hzf : eqStrZero (get_conferences stats) = false :=
        (eqStrZero_false_iff _).mpr hne
      simp only [pollLoop, hzf, Bool.false_eq_true, if_false] at hb
      have := pollLoop_broke_lt rest (p + 1) (s + 1) (p + 1) s hb
      omega
    · intro h0
      have hzt : eqStrZero (get_conferences stats) = true :=
        (eqStrZero_iff _).mpr h0
      simp [pollLoop, hzt]
  · intro hne
    have hzf : eqStrZero (get_conferences stats) = false :=
      (eqStrZero_false_iff _).mpr hne
    simp [pollLoop, hzf]

/-- Claim C1 witness: with a single stat element carrying value "5" the loop
keeps going, and with value "0" the first iteration is the last. -/
theorem c1_loop_last_iff_zero_witness :
    pollLoop [PollOutcome.resp [Stat.mk (some "conferences") (some "0")]] 0 0 =
      LoopEnd.broke 1 0 ∧
    pollLoop [PollOutcome.resp [Stat.mk (some "conferences") (some "5")]] 0 0 =
      pollLoop [] 1 1 :=
  ⟨(c1_loop_last_iff_zero [Stat.mk (some "conferences") (some "0")] [] 0 0).1.mpr
      rfl,
   (c1_loop_last_iff_zero [Stat.mk (some "conferences") (some "5")] [] 0 0).2
      (by decide)⟩

/-- Claim C2: the exitCode flag starts at 0, only ever holds 0 or 1, is
assigned at most once over a run (so the success to failure transition
happens at most once and never reverses), and the only event that sets it to
1 is a StanzaError on the shutdown request whose etype is not "wait" and
whose condition is not "service-unavailable". -/
theorem c2_exit_status_invariant (shut : ShutOutcome)
    (polls : List PollOutcome) :
    exitCode_init = 0 ∧
    ((shutdown_focus shut polls).ecHistory = [] ∧
        (shutdown_focus shut polls).exitCode = 0 ∨
      (shutdown_focus shut polls).ecHistory = [1] ∧
        (shutdown_focus shut polls).exitCode = 1) ∧
    ((shutdown_focus shut polls).ecHistory = [1] ↔
      ∃ e, shut = ShutOutcome.raise e ∧ e.etype ≠ "wait" ∧
        e.condition ≠ "service-unavailable") := by
  refine ⟨rfl, ?_, ?_⟩
  · cases shut with
    | ret typ =>
      by_cases h : typ = "result"
      · simp only [shutdown_focus, h, if_true]
        cases hl : pollLoop polls 0 0 <;> simp [exitCode_init]
      · simp [shutdown_focus, h, exitCode_init]
    | raise e =>
      by_cases hf : e.etype ≠ "wait" ∧ e.condition ≠ "service-unavailable"
      · simp [shutdown_focus, hf]
      · simp [shutdown_focus, hf, exitCode_init]
  · cases shut with
    | ret typ =>
      by_cases h : typ = "result"
      · simp only [shutdown_focus, h, if_true]
        cases hl : pollLoop polls 0 0 <;> simp
      · simp [shutdown_focus, h]
    | raise e =>
      by_cases hf : e.etype ≠ "wait" ∧ e.condition ≠ "service-unavailable"
      · simp only [shutdown_focus]
        rw [if_pos hf]
        constructor
        · intro _
          exact ⟨e, rfl, hf.1, hf.2⟩
        · intro _
          rfl
      · simp only [shutdown_focus]
        rw [if_neg hf]
        constructor
        · intro hcontra
          cases hcontra
        · rintro ⟨e', he', h1, h2⟩
          cases he'
          exact absurd ⟨h1, h2⟩ hf

/-- Claim C2 witness: a rejection with etype "cancel" and condition
"not-authorized" records exactly one assignment of 1. -/
theorem c2_exit_status_invariant_witness :
    (shutdown_focus (ShutOutcome.raise (StanzaErr.mk "cancel" "not-authorized"))
        []).ecHistory = [1] :=
  (c2_exit_status_invariant
      (ShutOutcome.raise (StanzaErr.mk "cancel" "not-authorized")) []).2.2.mpr
    ⟨StanzaErr.mk "cancel" "not-authorized", rfl, by decide, by decide⟩

/-- Claim C3 counterexample: with the shutdown accepted, a StanzaError raised
by the very first stats exchange does not lead to another iteration, even
though a further poll outcome (with a zero count) is available in the trace:
only one poll is issued and the handler proceeds to disconnect, so the loop
aborts instead of polling again, refuting the keep-polling reading of the
claim (the non-fatal half does hold: the exit code stays 0). -/
theorem c3_stats_error_counterexample :
    (shutdown_focus (ShutOutcome.ret "result")
        [PollOutcome.raise (StanzaErr.mk "cancel" "internal-server-error"),
         PollOutcome.resp [Stat.mk (some "conferences") (some "0")]]).pollCount
      = 1 ∧
    (shutdown_focus (ShutOutcome.ret "result")
        [PollOutcome.raise (StanzaErr.mk "cancel" "internal-server-error"),
         PollOutcome.resp [Stat.mk (some "conferences") (some "0")]]).terminated
      = true ∧
    (shutdown_focus (ShutOutcome.ret "result")
        [PollOutcome.raise (StanzaErr.mk "cancel" "internal-server-error"),
         PollOutcome.resp [Stat.mk (some "conferences") (some "0")]]).exitCode
      = 0 := by
  decide

/-- Claim C3 as amended: a StanzaError raised by a stats exchange during the
polling loop is non-fatal and never escalated — the exit code stays 0 and the
run completes with its single disconnect — but it aborts the polling loop
rather than causing another iteration: exactly the polls up to and including
the failing exchange are issued. -/
theorem c3_stats_error_nonfatal_aborts (pre : List PollOutcome)
    (hpre : ∀ o ∈ pre, nonZeroResp o) (e : StanzaErr)
    (rest : List PollOutcome) :
    (shutdown_focus (ShutOutcome.ret "result")
        (pre ++ PollOutcome.raise e :: rest)).exitCode = 0 ∧
    (shutdown_focus (ShutOutcome.ret "result")
        (pre ++ PollOutcome.raise e :: rest)).disconnects = 1 ∧
    (shutdown_focus (ShutOutcome.ret "result")
        (pre ++ PollOutcome.raise e :: rest)).terminated = true ∧
    (shutdown_focus (ShutOutcome.ret "result")
        (pre ++ PollOutcome.raise e :: rest)).pollCount = pre.length + 1 := by
  have hl : pollLoop (pre ++ PollOutcome.raise e :: rest) 0 0 =
      LoopEnd.raised e (pre.length + 1) pre.length := by
    rw [pollLoop_append_nonzero pre hpre]
    simp [pollLoop]
  simp [shutdown_focus, hl, exitCode_init]

/-- Claim C3 amended witness: one non-zero poll followed by a raising stats
exchange gives exit code 0, one disconnect and two issued polls. -/
theorem c3_stats_error_nonfatal_aborts_witness :
    (shutdown_focus (ShutOutcome.ret "result")
        ([PollOutcome.resp [Stat.mk (some "conferences") (some "3")]] ++
          PollOutcome.raise (StanzaErr.mk "cancel" "policy-violation") ::
            [])).exitCode = 0 ∧
    (shutdown_focus (ShutOutcome.ret "result")
        ([PollOutcome.resp [Stat.mk (some "conferences") (some "3")]] ++
          PollOutcome.raise (StanzaErr.mk "cancel" "policy-violation") ::
            [])).disconnects = 1 ∧
    (shutdown_focus (ShutOutcome.ret "result")
        ([PollOutcome.resp [Stat.mk (some "conferences") (some "3")]] ++
          PollOutcome.raise (StanzaErr.mk "cancel" "policy-violation") ::
            [])).terminated = true ∧
    (shutdown_focus (ShutOutcome.ret "result")
        ([PollOutcome.resp [Stat.mk (some "conferences") (some "3")]] ++
          PollOutcome.raise (StanzaErr.mk "cancel" "policy-violation") ::
            [])).pollCount = 2 :=
  c3_stats_error_nonfatal_aborts
    [PollOutcome.resp [Stat.mk (some "conferences") (some "3")]]
    (by
      intro o ho
      rw [List.mem_singleton] at ho
      exact ⟨[Stat.mk (some "conferences") (some "3")], by rw [ho], by decide⟩)
    (StanzaErr.mk "cancel" "policy-violation") []

/-- Claim C4: on each of the reachable exit paths — shutdown accepted and the
loop left (in particular polled down to zero), shutdown rejected with a
benign category, shutdown rejected with a fatal category — the
disconnect-with-flush call happens exactly once. -/
theorem c4_disconnect_exactly_once (shut : ShutOutcome)
    (polls : List PollOutcome)
    (h : (∃ e, shut = ShutOutcome.raise e) ∨
      (shut = ShutOutcome.ret "result" ∧
        (shutdown_focus shut polls).terminated = true)) :
    (shutdown_focus shut polls).disconnects = 1 := by
  cases h with
  | inl he =>
    obtain ⟨e, rfl⟩ := he
    by_cases hf : e.etype ≠ "wait" ∧ e.condition ≠ "service-unavailable"
    · simp [shutdown_focus, hf]
    · simp only [shutdown_focus]
      rw [if_neg hf]
  | inr hr =>
    obtain ⟨rfl, hterm⟩ := hr
    simp only [shutdown_focus, if_true] at hterm ⊢
    cases hl : pollLoop polls 0 0 with
    | broke p s => simp [hl]
    | raised e p s => simp [hl]
    | exhausted p s =>
      rw [hl] at hterm
      simp at hterm

/-- Claim C4 witness: a benign rejection disconnects exactly once. -/
theorem c4_disconnect_exactly_once_witness :
    (shutdown_focus (ShutOutcome.raise (StanzaErr.mk "wait" "resource-constraint"))
        []).disconnects = 1 :=
  c4_disconnect_exactly_once
    (ShutOutcome.raise (StanzaErr.mk "wait" "resource-constraint")) []
    (Or.inl ⟨StanzaErr.mk "wait" "resource-constraint", rfl⟩)

/-- Claim C5 counterexample: with two stat elements both named "conferences"
but carrying different values, reordering the response changes the extracted
result, because the code returns the first match; so extraction is not
order-independent over all responses. -/
theorem c5_order_counterexample :
    ([Stat.mk (some "conferences") (some "1"),
      Stat.mk (some "conferences") (some "2")] : List Stat).Perm
      [Stat.mk (some "conferences") (some "2"),
        Stat.mk (some "conferences") (some "1")] ∧
    get_conferences
        [Stat.mk (some "conferences") (some "1"),
          Stat.mk (some "conferences") (some "2")] ≠
      get_conferences
        [Stat.mk (some "conferences") (some "2"),
          Stat.mk (some "conferences") (some "1")] := by
  constructor
  · exact List.Perm.swap _ _ _
  · decide

/-- Claim C5 as amended: for every stats response in which at most one stat
element is named "conferences", extraction is independent of the order of the
stat elements (any permutation yields the same result), and when no stat is
named "conferences" the extraction returns the sentinel -1. -/
theorem c5_extraction_order_independent (l1 l2 : List Stat) (hp : l1.Perm l2)
    (hc : l1.countP isConf ≤ 1) :
    get_conferences l1 = get_conferences l2 ∧
    (l1.countP isConf = 0 → get_conferences l1 = PyVal.int (-1)) := by
  constructor
  · rw [get_conferences_eq_find, get_conferences_eq_find,
      find?_isConf_eq_of_perm l1 l2 hp hc]
  · intro h0
    rw [get_conferences_eq_find]
    have hnone : l1.find? isConf = none := by
      rw [List.find?_eq_none]
      intro x hx hcx
      have hpos : 0 < l1.countP isConf := by
        rw [List.countP_eq_length_filter]
        exact List.length_pos.mpr
          (List.ne_nil_of_mem (List.mem_filter.mpr ⟨hx, hcx⟩))
      omega
    rw [hnone]

/-- Claim C5 amended witness: a response with a single differently named stat
extracts the sentinel -1 in either order. -/
theorem c5_extraction_order_independent_witness :
    get_conferences [Stat.mk (some "participants") (some "7")] =
      get_conferences [Stat.mk (some "participants") (some "7")] ∧
    get_conferences [Stat.mk (some "participants") (some "7")] =
      PyVal.int (-1) :=
  ⟨(c5_extraction_order_independent
      [Stat.mk (some "participants") (some "7")]
      [Stat.mk (some "participants") (some "7")]
      (List.Perm.refl _) (by decide)).1,
   (c5_extraction_order_independent
      [Stat.mk (some "participants") (some "7")]
      [Stat.mk (some "participants") (some "7")]
      (List.Perm.refl _) (by decide)).2 (by decide)⟩

/-- Claim C6: a shutdown rejection with etype "wait" or condition
"service-unavailable" produces no polling, one disconnect and exit code 0;
a rejection with any other etype and condition produces no polling, one
disconnect and exit code 1. -/
theorem c6_rejection_paths (e : StanzaErr) (polls : List PollOutcome) :
    (shutdown_focus (ShutOutcome.raise e) polls).pollCount = 0 ∧
    (shutdown_focus (ShutOutcome.raise e) polls).disconnects = 1 ∧
    (mainRun true (ShutOutcome.raise e) polls).exitCode =
      (if e.etype = "wait" ∨ e.condition = "service-unavailable" then 0
        else 1) := by
  by_cases hf : e.etype ≠ "wait" ∧ e.condition ≠ "service-unavailable"
  · have hb : ¬(e.etype = "wait" ∨ e.condition = "service-unavailable") := by
      tauto
    simp [shutdown_focus, mainRun, hf, hb, exitCode_init]
  · have hb : e.etype = "wait" ∨ e.condition = "service-unavailable" := by
      tauto
    simp only [shutdown_focus, mainRun]
    rw [if_neg hf, if_pos hb]
    simp [exitCode_init]

/-- Claim C7: when the initial connection fails the driver reports it only
through the log and the process still exits 0; a nonzero exit code can only
come from a connected run whose shutdown request was rejected outside the two
benign categories. -/
theorem c7_connect_failure_exits_zero (connectOk : Bool) (shut : ShutOutcome)
    (polls : List PollOutcome) :
    (connectOk = false →
      (mainRun connectOk shut polls).exitCode = 0 ∧
      (mainRun connectOk shut polls).logs = ["Unable to connect."]) ∧
    ((mainRun connectOk shut polls).exitCode ≠ 0 →
      connectOk = true ∧ ∃ e, shut = ShutOutcome.raise e ∧
        e.etype ≠ "wait" ∧ e.condition ≠ "service-unavailable") := by
  cases connectOk with
  | false =>
    refine ⟨fun _ => ⟨rfl, rfl⟩, fun hne => absurd rfl hne⟩
  | true =>
    constructor
    · intro hcontra
      cases hcontra
    · intro hne
      refine ⟨rfl, ?_⟩
      cases shut with
      | ret typ =>
        exfalso
        apply hne
        simp only [mainRun, if_true, shutdown_focus]
        by_cases h : typ = "result"
        · rw [if_pos h]
          cases hl : pollLoop polls 0 0 <;> rfl
        · rw [if_neg h]
          rfl
      | raise e =>
        by_cases hf : e.etype ≠ "wait" ∧ e.condition ≠ "service-unavailable"
        · exact ⟨e, rfl, hf.1, hf.2⟩
        · exfalso
          apply hne
          simp only [mainRun, if_true, shutdown_focus]
          rw [if_neg hf]
          rfl

/-- Claim C7 witness: a failed connection exits 0 and logs the failure. -/
theorem c7_connect_failure_exits_zero_witness :
    (mainRun false (ShutOutcome.ret "result") []).exitCode = 0 ∧
    (mainRun false (ShutOutcome.ret "result") []).logs =
      ["Unable to connect."] :=
  (c7_connect_failure_exits_zero false (ShutOutcome.ret "result") []).1 rfl

/-- Claim C8: with the shutdown accepted, stats responses extracting to "5",
"2", "0" lead to exactly three polls with exactly two sleeps between them and
exit code 0; a first response extracting to "0" leads to exactly one poll
with no sleep and exit code 0. -/
theorem c8_scenario_poll_counts (s1 s2 s3 z : List Stat)
    (rest rest2 : List PollOutcome)
    (h1 : get_conferences s1 = PyVal.str "5")
    (h2 : get_conferences s2 = PyVal.str "2")
    (h3 : get_conferences s3 = PyVal.str "0")
    (hz : get_conferences z = PyVal.str "0") :
    (shutdown_focus (ShutOutcome.ret "result")
        (PollOutcome.resp s1 :: PollOutcome.resp s2 :: PollOutcome.resp s3 ::
          rest)).pollCount = 3 ∧
    (shutdown_focus (ShutOutcome.ret "result")
        (PollOutcome.resp s1 :: PollOutcome.resp s2 :: PollOutcome.resp s3 ::
          rest)).sleepCount = 2 ∧
    (mainRun true (ShutOutcome.ret "result")
        (PollOutcome.resp s1 :: PollOutcome.resp s2 :: PollOutcome.resp s3 ::
          rest)).exitCode = 0 ∧
    (shutdown_focus (ShutOutcome.ret "result")
        (PollOutcome.resp z :: rest2)).pollCount = 1 ∧
    (shutdown_focus (ShutOutcome.ret "result")
        (PollOutcome.resp z :: rest2)).sleepCount = 0 ∧
    (mainRun true (ShutOutcome.ret "result")
        (PollOutcome.resp z :: rest2)).exitCode = 0 := by
  have e1 : eqStrZero (get_conferences s1) = false := by rw [h1]; rfl
  have e2 : eqStrZero (get_conferences s2) = false := by rw [h2]; rfl
  have e3 : eqStrZero (get_conferences s3) = true := by rw [h3]; rfl
  have ez : eqStrZero (get_conferences z) = true := by rw [hz]; rfl
  have hl3 : pollLoop (PollOutcome.resp s1 :: PollOutcome.resp s2 ::
      PollOutcome.resp s3 :: rest) 0 0 = LoopEnd.broke 3 2 := by
    simp [pollLoop, e1, e2, e3]
  have hl1 : pollLoop (PollOutcome.resp z :: rest2) 0 0 =
      LoopEnd.broke 1 0 := by
    simp [pollLoop, ez]
  simp [shutdown_focus, mainRun, hl3, hl1, exitCode_init]

/-- Claim C8 witness: concrete single-stat responses with values "5", "2",
"0" give three polls, two sleeps and exit code 0, while an immediate "0"
gives one poll, no sleep and exit code 0. -/
theorem c8_scenario_poll_counts_witness :
    (shutdown_focus (ShutOutcome.ret "result")
        (PollOutcome.resp [Stat.mk (some "conferences") (some "5")] ::
          PollOutcome.resp [Stat.mk (some "conferences") (some "2")] ::
          PollOutcome.resp [Stat.mk (some "conferences") (some "0")] ::
          [])).pollCount = 3 ∧
    (shutdown_focus (ShutOutcome.ret "result")
        (PollOutcome.resp [Stat.mk (some "conferences") (some "5")] ::
          PollOutcome.resp [Stat.mk (some "conferences") (some "2")] ::
          PollOutcome.resp [Stat.mk (some "conferences") (some "0")] ::
          [])).sleepCount = 2 ∧
    (mainRun true (ShutOutcome.ret "result")
        (PollOutcome.resp [Stat.mk (some "conferences") (some "5")] ::
          PollOutcome.resp [Stat.mk (some "conferences") (some "2")] ::
          PollOutcome.resp [Stat.mk (some "conferences") (some "0")] ::
          [])).exitCode = 0 ∧
    (shutdown_focus (ShutOutcome.ret "result")
        (PollOutcome.resp [Stat.mk (some "conferences") (some "0")] ::
          [])).pollCount = 1 ∧
    (shutdown_focus (ShutOutcome.ret "result")
        (PollOutcome.resp [Stat.mk (some "conferences") (some "0")] ::
          [])).sleepCount = 0 ∧
    (mainRun true (ShutOutcome.ret "result")
        (PollOutcome.resp [Stat.mk (some "conferences") (some "0")] ::
          [])).exitCode = 0 :=
  c8_scenario_poll_counts
    [Stat.mk (some "conferences") (some "5")]
    [Stat.mk (some "conferences") (some "2")]
    [Stat.mk (some "conferences") (some "0")]
    [Stat.mk (some "conferences") (some "0")]
    [] [] rfl rfl rfl rfl

/-- Claim C9: once the shutdown request was answered with a "result"
response, the exit code of the run is 0 whatever the polling loop encounters
afterwards — in particular a StanzaError raised during polling reaches the
except clause with the accepted flag set, so the guard keeps exitCode
untouched and the process exits successfully even if it never observed zero
conferences. -/
theorem c9_accepted_exit_zero (polls : List PollOutcome) :
    (shutdown_focus (ShutOutcome.ret "result") polls).exitCode = 0 ∧
    (mainRun true (ShutOutcome.ret "result") polls).exitCode = 0 := by
  have h : (shutdown_focus (ShutOutcome.ret "result") polls).exitCode = 0 := by
    simp only [shutdown_focus, if_true]
    cases hl : pollLoop polls 0 0 <;> rfl
  exact ⟨h, by simp [mainRun, h]⟩

/-- Claim C10: a stat element named "conferences" with no value attribute
makes get_conferences return the Python None, which differs from the absent
sentinel -1 and from the string "0", so the loop sleeps and polls again; and
extraction takes the first stat named "conferences", ignoring any later
elements, duplicates included. -/
theorem c10_valueless_counter (pre : List Stat) (st : Stat) (rest : List Stat)
    (hpre : ∀ x ∈ pre, isConf x = false) (hst : isConf st = true) :
    get_conferences (pre ++ st :: rest) = pyOfOpt st.value ∧
    (st.value = none →
      get_conferences (pre ++ st :: rest) = PyVal.pynone ∧
      PyVal.pynone ≠ PyVal.int (-1) ∧
      ∀ tl p c, pollLoop (PollOutcome.resp (pre ++ st :: rest) :: tl) p c =
        pollLoop tl (p + 1) (c + 1)) := by
  have hmain : get_conferences (pre ++ st :: rest) = pyOfOpt st.value :=
    get_conferences_first_match pre st rest hpre hst
  refine ⟨hmain, fun hv => ?_⟩
  have hpn : get_conferences (pre ++ st :: rest) = PyVal.pynone := by
    rw [hmain, hv]
    rfl
  refine ⟨hpn, by decide, fun tl p c => ?_⟩
  have hzf : eqStrZero (get_conferences (pre ++ st :: rest)) = false := by
    rw [hpn]
    rfl
  simp [pollLoop, hzf]

/-- Claim C10 witness: a lone "conferences" stat without a value attribute
extracts to None and keeps the loop going, and a later duplicate with value
"0" is ignored. -/
theorem c10_valueless_counter_witness :
    get_conferences [Stat.mk (some "conferences") none,
      Stat.mk (some "conferences") (some "0")] = PyVal.pynone ∧
    PyVal.pynone ≠ PyVal.int (-1) :=
  ⟨((c10_valueless_counter [] (Stat.mk (some "conferences") none)
      [Stat.mk (some "conferences") (some "0")]
      (by intro x hx; cases hx) (by decide)).2 rfl).1,
   ((c10_valueless_counter [] (Stat.mk (some "conferences") none)
      [Stat.mk (some "conferences") (some "0")]
      (by intro x hx; cases hx) (by decide)).2 rfl).2.1⟩
